import Mathlib

/-!
# go-mtls: building mutual-TLS transport credentials from PEM files

A shallow embedding of `mtls.go`.  The package reads three files through an
`afero.Fs`, parses a key pair and a CA pool with the Go standard library and
wraps a role-dependent `tls.Config` into gRPC transport credentials.

Go values that may be `nil` are `Option`s; a Go `(value, error)` return is a
record with both components, so that "value and error both set" and "neither
set" are expressible.  Every call on the storage backend is recorded in the
order in which the source makes it.
-/

namespace Mtls

/-! ## Go errors -/

/-- A Go `error` value.  `msg t` is an error without a cause (`errors.New`, or
`fmt.Errorf` without `%w`); `wrap t c` is `fmt.Errorf(t + "%w", c)`: its text
is `t` followed by the text of `c`, and `errors.Unwrap` gives `c` back. -/
inductive GoError where
  | msg (text : String)
  | wrap (text : String) (cause : GoError)
  deriving DecidableEq, Repr

/-- The method `Error()`: the text of an error. -/
def GoError.Error : GoError → String
  | .msg t => t
  | .wrap t c => t ++ c.Error

/-- The function `errors.Unwrap`. -/
def GoError.Unwrap : GoError → Option GoError
  | .msg _ => none
  | .wrap _ c => some c

/-! ## The storage backend (`afero.Fs`) -/

/-- A Go `[]byte`. -/
abbrev Bytes := List UInt8

/-- An opened `afero.File`, seen as an `io.Reader`: the bytes it delivers
before it stops, and the error it stops with (`none` for `io.EOF`). -/
structure AferoFile where
  data : Bytes
  readErr : Option GoError

/-- The function `io.ReadAll`: "reads from r until an error or EOF and returns
the data it read"; a clean end of file is reported as a nil error. -/
def ioReadAll (file : AferoFile) : Bytes × Option GoError :=
  (file.data, file.readErr)

/-- The part of `afero.Fs` that the package uses: `Open`. -/
structure AferoFs where
  Open : String → Except GoError AferoFile

/-- A call made on the storage backend: `Fs.Open(path)`, or the reading of the
file that `Open(path)` returned. -/
inductive FsCall where
  | Open (path : String)
  | ReadAll (path : String)
  deriving DecidableEq, Repr

/-- The path a storage call is about. -/
def FsCall.path : FsCall → String
  | .Open p => p
  | .ReadAll p => p

/-- The paths of the `Open` calls of a trace, in order. -/
def opens : List FsCall → List String
  | [] => []
  | .Open p :: cs => p :: opens cs
  | .ReadAll _ :: cs => opens cs

/-- A Go `(value, error)` return together with the storage calls made while
computing it.  `val = none` is a nil value, `err = none` a nil error. -/
structure Ret (α : Type) where
  val : Option α
  err : Option GoError
  calls : List FsCall

/-! ## The package's data model -/

/-- The type `MTLSConfig int`. -/
abbrev MTLSConfig := Int

/-- The constant `Client` (`iota` = 0). -/
def Client : MTLSConfig := 0

/-- The constant `Server` (`iota` = 1). -/
def Server : MTLSConfig := 1

/-- The struct `X509Files`. -/
structure X509Files where
  CertificateFile : String
  KeyFile : String
  CertificateAuthorityFile : String
  Fs : AferoFs

/-- The type `X509FilesOption func(*X509Files)`: an update of the struct. -/
abbrev X509FilesOption := X509Files → X509Files

/-- The function `NewX509Files`; `osFs` is the value of `afero.NewOsFs()`. -/
def NewX509Files (osFs : AferoFs) (certificateFile keyFile certificateAuthorityFile : String)
    (options : List X509FilesOption) : X509Files :=
  let x509Files : X509Files :=
    { CertificateFile := certificateFile
      KeyFile := keyFile
      CertificateAuthorityFile := certificateAuthorityFile
      Fs := osFs }
  options.foldl (fun x5f option => option x5f) x509Files

/-- The option `WithFilesystem`. -/
def WithFilesystem (fs : AferoFs) : X509FilesOption :=
  fun x5f => { x5f with Fs := fs }

/-! ## The TLS and gRPC types -/

/-- The type `tls.ClientAuthType`; `NoClientCert` is its zero value. -/
inductive ClientAuthType where
  | NoClientCert
  | RequestClientCert
  | RequireAnyClientCert
  | VerifyClientCertIfGiven
  | RequireAndVerifyClientCert
  deriving DecidableEq, Repr

/-- The fields of `tls.Config` that matter here; a field that a struct literal
does not set has its zero value (`[]`, `none`, `NoClientCert`, `""`). -/
structure TLSConfig (Cert Pool : Type) where
  Certificates : List Cert := []
  RootCAs : Option Pool := none
  ClientCAs : Option Pool := none
  ClientAuth : ClientAuthType := .NoClientCert
  ServerName : String := ""

/-- The struct `credentials.ProtocolInfo`. -/
structure ProtocolInfo where
  ServerName : String
  SecurityProtocol : String
  SecurityVersion : String
  ProtocolVersion : String
  deriving DecidableEq, Repr

/-- The gRPC TLS credential: it holds the TLS policy it was built from. -/
structure TransportCredentials (Cert Pool : Type) where
  config : TLSConfig Cert Pool

/-- Modelled from the spec: `credentials.NewTLS` of google.golang.org/grpc is
not part of the source tree; it wraps the policy and never fails ("this
wrapping step is assumed infallible given a well-formed policy"). -/
def NewTLS {Cert Pool : Type} (c : TLSConfig Cert Pool) : TransportCredentials Cert Pool :=
  { config := c }

/-- Modelled from the spec: `Info()` of the gRPC TLS credential is not part of
the source tree; it "reports negotiated security-protocol metadata (protocol
name "tls", negotiated version, server name if applicable)", which before any
handshake is version "1.2" and the server name of the wrapped policy. -/
def TransportCredentials.Info {Cert Pool : Type} (tc : TransportCredentials Cert Pool) :
    ProtocolInfo :=
  { ServerName := tc.config.ServerName
    SecurityProtocol := "tls"
    SecurityVersion := "1.2"
    ProtocolVersion := "" }

/-- The library functions the package calls and whose code is outside the
source tree: `afero.NewOsFs`, `tls.X509KeyPair`, `x509.NewCertPool` and
`(*x509.CertPool).AppendCertsFromPEM` (the pool after the call, and `ok`). -/
structure Env (Cert Pool : Type) where
  NewOsFs : AferoFs
  X509KeyPair : Bytes → Bytes → Except GoError Cert
  NewCertPool : Pool
  AppendCertsFromPEM : Pool → Bytes → Pool × Bool

/-! ## The operations -/

/-- The method `readAllFile`. -/
def readAllFile (x509Files : X509Files) (path : String) : Ret Bytes :=
  match x509Files.Fs.Open path with
  | .error err =>
    { val := none, err := some (.wrap "failed to open file: " err), calls := [.Open path] }
  | .ok file =>
    match ioReadAll file with
    | (_, some err) =>
      { val := none, err := some (.wrap "failed to read file: " err),
        calls := [.Open path, .ReadAll path] }
    | (data, none) =>
      { val := some data, err := none, calls := [.Open path, .ReadAll path] }

/-- The `switch mtlsConfig` of `GenerateTransportCredentials`: the policy for
the role, or the error of the `default` branch. -/
def roleConfig {Cert Pool : Type} (certificate : Cert) (certificatePool : Pool)
    (mtlsConfig : MTLSConfig) : Except GoError (TLSConfig Cert Pool) :=
  if mtlsConfig = Client then
    .ok { Certificates := [certificate], RootCAs := some certificatePool }
  else if mtlsConfig = Server then
    .ok { ClientAuth := .RequireAndVerifyClientCert
          Certificates := [certificate]
          ClientCAs := some certificatePool }
  else
    .error (.msg ("invalid MTLSConfig: " ++ toString mtlsConfig))

/-- The method `GenerateTransportCredentials`.  A nil `[]byte` that comes with
a nil error is used as the empty byte string, as in Go. -/
def GenerateTransportCredentials {Cert Pool : Type} (env : Env Cert Pool)
    (x509Files : X509Files) (mtlsConfig : MTLSConfig) : Ret (TransportCredentials Cert Pool) :=
  let r1 := readAllFile x509Files x509Files.CertificateFile
  match r1.err with
  | some err =>
    { val := none, err := some (.wrap "failed to read certificate file: " err), calls := r1.calls }
  | none =>
    let certificateData := r1.val.getD []
    let r2 := readAllFile x509Files x509Files.KeyFile
    match r2.err with
    | some err =>
      { val := none, err := some (.wrap "failed to read key file: " err),
        calls := r1.calls ++ r2.calls }
    | none =>
      let keyData := r2.val.getD []
      match env.X509KeyPair certificateData keyData with
      | .error err =>
        { val := none, err := some (.wrap "failed to load x509 key pair: " err),
          calls := r1.calls ++ r2.calls }
      | .ok certificate =>
        let r3 := readAllFile x509Files x509Files.CertificateAuthorityFile
        match r3.err with
        | some err =>
          { val := none
            err := some (.wrap "failed to read certificate authority file: " err)
            calls := r1.calls ++ r2.calls ++ r3.calls }
        | none =>
          let certificateAuthorityData := r3.val.getD []
          let appended := env.AppendCertsFromPEM env.NewCertPool certificateAuthorityData
          if !appended.2 then
            { val := none
              err := some (.msg "failed to append certificate authority to pool")
              calls := r1.calls ++ r2.calls ++ r3.calls }
          else
            match roleConfig certificate appended.1 mtlsConfig with
            | .error err =>
              { val := none, err := some err, calls := r1.calls ++ r2.calls ++ r3.calls }
            | .ok tlsConfig =>
              { val := some (NewTLS tlsConfig), err := none
                calls := r1.calls ++ r2.calls ++ r3.calls }

/-! ## The in-memory storage backend -/

/-- Modelled from the spec: `afero.MemMapFs` is not part of the source tree; it
is the "virtual in-memory map" backend: a finite map from paths to contents. -/
structure MemMapFs where
  files : List (String × Bytes)

/-- The function `afero.NewMemMapFs`: no file yet. -/
def NewMemMapFs : MemMapFs := { files := [] }

/-- The function `afero.WriteFile` on a `MemMapFs`: the file at `path` now has
the content `data`, the other files are untouched. -/
def MemMapFs.WriteFile (m : MemMapFs) (path : String) (data : Bytes) : MemMapFs :=
  { files := (path, data) :: m.files.filter (fun e => e.1 != path) }

/-- The `afero.Fs` view of a `MemMapFs`: a stored file opens and is read
completely without error; a path that is not stored does not open. -/
def MemMapFs.toFs (m : MemMapFs) : AferoFs :=
  { Open := fun name =>
      match m.files.lookup name with
      | some data => .ok { data := data, readErr := none }
      | none => .error (.msg ("open " ++ name ++ ": file does not exist")) }

/-! ## Conditions on the storage backend -/

/-- The file at `path` opens and reads to its end, giving `data`. -/
def Loads (fs : AferoFs) (path : String) (data : Bytes) : Prop :=
  ∃ file, fs.Open path = .ok file ∧ file.readErr = none ∧ file.data = data

/-- The file at `path` does not open, for the reason `cause`. -/
def OpenFails (fs : AferoFs) (path : String) (cause : GoError) : Prop :=
  fs.Open path = .error cause

/-- The file at `path` opens, and reading it stops with the error `cause`. -/
def ReadFails (fs : AferoFs) (path : String) (cause : GoError) : Prop :=
  ∃ file, fs.Open path = .ok file ∧ file.readErr = some cause

/-- The file at `path` cannot be opened or read; `e` is the error that
`readAllFile` reports for it. -/
def LoadFails (fs : AferoFs) (path : String) (e : GoError) : Prop :=
  (∃ cause, OpenFails fs path cause ∧ e = .wrap "failed to open file: " cause) ∨
  (∃ cause, ReadFails fs path cause ∧ e = .wrap "failed to read file: " cause)

/-- Everything `GenerateTransportCredentials` needs is in place: the three
files load, the certificate and key parse as the pair `cert`, and appending
the CA bytes to a fresh pool reports success. -/
def Material {Cert Pool : Type} (env : Env Cert Pool) (x : X509Files)
    (certData keyData caData : Bytes) (cert : Cert) : Prop :=
  Loads x.Fs x.CertificateFile certData ∧ Loads x.Fs x.KeyFile keyData ∧
  env.X509KeyPair certData keyData = .ok cert ∧
  Loads x.Fs x.CertificateAuthorityFile caData ∧
  (env.AppendCertsFromPEM env.NewCertPool caData).2 = true

/-! ## Concrete instances -/

/-- A small stand-in for the TLS library: the certificate `[67]` pairs with
the key `[75]` only; every non-empty CA bundle yields one pool entry. -/
def sampleEnv : Env String (List Bytes) where
  NewOsFs := NewMemMapFs.toFs
  X509KeyPair := fun c k =>
    if c = [67] ∧ k = [75] then .ok "leaf"
    else .error (.msg "tls: private key does not match public key")
  NewCertPool := []
  AppendCertsFromPEM := fun pool pem => if pem = [] then (pool, false) else (pool ++ [pem], true)

/-- Three files written as in `TestGenerateTransportCredentials`. -/
def sampleMem : MemMapFs :=
  ((NewMemMapFs.WriteFile "crt" [67]).WriteFile "key" [75]).WriteFile "ca" [65]

/-- The source over `sampleMem`. -/
def sampleFiles : X509Files :=
  NewX509Files sampleEnv.NewOsFs "crt" "key" "ca" [WithFilesystem sampleMem.toFs]

/-- A backend on which `"crt"` opens but breaks off while being read, and
nothing else opens. -/
def brokenFs : AferoFs :=
  { Open := fun name =>
      if name = "crt" then .ok { data := [67], readErr := some (.msg "unexpected EOF") }
      else .error (.msg "permission denied") }

/-- The source over `brokenFs`. -/
def brokenFiles : X509Files :=
  NewX509Files sampleEnv.NewOsFs "crt" "key" "ca" [WithFilesystem brokenFs]

/-- The source over the default backend of `sampleEnv`, which stores no file. -/
def missingFiles : X509Files :=
  NewX509Files sampleEnv.NewOsFs "crt" "key" "ca" []

/-- A certificate and a key that do not pair, and no CA file. -/
def mismatchFiles : X509Files :=
  NewX509Files sampleEnv.NewOsFs "crt" "key" "ca"
    [WithFilesystem ((NewMemMapFs.WriteFile "crt" [67]).WriteFile "key" [88]).toFs]

/-- A valid pair and an empty CA file. -/
def emptyCaFiles : X509Files :=
  NewX509Files sampleEnv.NewOsFs "crt" "key" "ca"
    [WithFilesystem (sampleMem.WriteFile "ca" []).toFs]

/-- A valid pair and no CA file. -/
def noCaFiles : X509Files :=
  NewX509Files sampleEnv.NewOsFs "crt" "key" "ca"
    [WithFilesystem ((NewMemMapFs.WriteFile "crt" [67]).WriteFile "key" [75]).toFs]

/-- A certificate, a key that does not pair with it, and a CA file. -/
def wrongKeyFiles : X509Files :=
  NewX509Files sampleEnv.NewOsFs "crt" "key" "ca"
    [WithFilesystem (sampleMem.WriteFile "key" [88]).toFs]

/-- The six storage calls of a run that loads all three files. -/
def fullCalls (x : X509Files) : List FsCall :=
  [.Open x.CertificateFile, .ReadAll x.CertificateFile, .Open x.KeyFile, .ReadAll x.KeyFile,
   .Open x.CertificateAuthorityFile, .ReadAll x.CertificateAuthorityFile]

/-! ## Lemmas on `readAllFile` -/

theorem readAllFile_of_loads {x : X509Files} {path : String} {data : Bytes}
    (h : Loads x.Fs path data) :
    readAllFile x path = { val := some data, err := none, calls := [.Open path, .ReadAll path] } := by
  obtain ⟨file, ho, hr, hd⟩ := h
  simp [readAllFile, ho, ioReadAll, hr, hd]

theorem readAllFile_of_openFails {x : X509Files} {path : String} {cause : GoError}
    (h : OpenFails x.Fs path cause) :
    readAllFile x path =
      { val := none, err := some (.wrap "failed to open file: " cause), calls := [.Open path] } := by
  simp [readAllFile, show x.Fs.Open path = .error cause from h]

theorem readAllFile_of_readFails {x : X509Files} {path : String} {cause : GoError}
    (h : ReadFails x.Fs path cause) :
    readAllFile x path =
      { val := none, err := some (.wrap "failed to read file: " cause)
        calls := [.Open path, .ReadAll path] } := by
  obtain ⟨file, ho, hr⟩ := h
  simp [readAllFile, ho, ioReadAll, hr]

theorem readAllFile_of_loadFails {x : X509Files} {path : String} {e : GoError}
    (h : LoadFails x.Fs path e) :
    (readAllFile x path).val = none ∧ (readAllFile x path).err = some e ∧
    opens (readAllFile x path).calls = [path] ∧
    ∀ c ∈ (readAllFile x path).calls, c.path = path := by
  rcases h with ⟨cause, h, rfl⟩ | ⟨cause, h, rfl⟩
  · simp [readAllFile_of_openFails h, opens, FsCall.path]
  · simp [readAllFile_of_readFails h, opens, FsCall.path]

/-- Every path either loads or fails to load. -/
theorem loads_or_loadFails (fs : AferoFs) (path : String) :
    (∃ data, Loads fs path data) ∨ (∃ e, LoadFails fs path e) := by
  cases ho : fs.Open path with
  | error cause => exact Or.inr ⟨_, Or.inl ⟨cause, ho, rfl⟩⟩
  | ok file =>
    cases hr : file.readErr with
    | none => exact Or.inl ⟨file.data, file, ho, hr, rfl⟩
    | some cause => exact Or.inr ⟨_, Or.inr ⟨cause, ⟨file, ho, hr⟩, rfl⟩⟩

/-- A path does not both load and fail to load. -/
theorem not_loads_of_loadFails {fs : AferoFs} {path : String} {e : GoError} {data : Bytes}
    (hf : LoadFails fs path e) (hl : Loads fs path data) : False := by
  obtain ⟨file, ho, hr, _⟩ := hl
  rcases hf with ⟨cause, h, _⟩ | ⟨cause, ⟨file2, ho2, hr2⟩, _⟩
  · simp [OpenFails, ho] at h
  · simp [ho] at ho2
    subst ho2
    simp [hr] at hr2

theorem loads_unique {fs : AferoFs} {path : String} {d1 d2 : Bytes}
    (h1 : Loads fs path d1) (h2 : Loads fs path d2) : d1 = d2 := by
  obtain ⟨f1, ho1, _, hd1⟩ := h1
  obtain ⟨f2, ho2, _, hd2⟩ := h2
  simp [ho1] at ho2
  subst ho2
  exact hd1.symm.trans hd2

/-! ## Lemmas on `GenerateTransportCredentials`, one per step -/

section Steps

variable {Cert Pool : Type} {env : Env Cert Pool} {x : X509Files} {role : MTLSConfig}

theorem generate_of_certFails {e : GoError} (h : LoadFails x.Fs x.CertificateFile e) :
    GenerateTransportCredentials env x role =
      { val := none, err := some (.wrap "failed to read certificate file: " e)
        calls := (readAllFile x x.CertificateFile).calls } := by
  have h1 := (readAllFile_of_loadFails h).2.1
  simp [GenerateTransportCredentials, h1]

theorem generate_of_keyFails {certData : Bytes} {e : GoError}
    (hc : Loads x.Fs x.CertificateFile certData) (h : LoadFails x.Fs x.KeyFile e) :
    GenerateTransportCredentials env x role =
      { val := none, err := some (.wrap "failed to read key file: " e)
        calls := [.Open x.CertificateFile, .ReadAll x.CertificateFile] ++
          (readAllFile x x.KeyFile).calls } := by
  have h1 := readAllFile_of_loads hc
  have h2 := (readAllFile_of_loadFails h).2.1
  simp [GenerateTransportCredentials, h1, h2]

theorem generate_of_pairFails {certData keyData : Bytes} {e : GoError}
    (hc : Loads x.Fs x.CertificateFile certData) (hk : Loads x.Fs x.KeyFile keyData)
    (h : env.X509KeyPair certData keyData = .error e) :
    GenerateTransportCredentials env x role =
      { val := none, err := some (.wrap "failed to load x509 key pair: " e)
        calls := [.Open x.CertificateFile, .ReadAll x.CertificateFile,
          .Open x.KeyFile, .ReadAll x.KeyFile] } := by
  have h1 := readAllFile_of_loads hc
  have h2 := readAllFile_of_loads hk
  simp [GenerateTransportCredentials, h1, h2, h]

theorem generate_of_caFails {certData keyData : Bytes} {cert : Cert} {e : GoError}
    (hc : Loads x.Fs x.CertificateFile certData) (hk : Loads x.Fs x.KeyFile keyData)
    (hp : env.X509KeyPair certData keyData = .ok cert)
    (h : LoadFails x.Fs x.CertificateAuthorityFile e) :
    GenerateTransportCredentials env x role =
      { val := none, err := some (.wrap "failed to read certificate authority file: " e)
        calls := [.Open x.CertificateFile, .ReadAll x.CertificateFile,
          .Open x.KeyFile, .ReadAll x.KeyFile] ++
          (readAllFile x x.CertificateAuthorityFile).calls } := by
  have h1 := readAllFile_of_loads hc
  have h2 := readAllFile_of_loads hk
  have h3 := (readAllFile_of_loadFails h).2.1
  simp [GenerateTransportCredentials, h1, h2, hp, h3]

theorem generate_of_poolFails {certData keyData caData : Bytes} {cert : Cert}
    (hc : Loads x.Fs x.CertificateFile certData) (hk : Loads x.Fs x.KeyFile keyData)
    (hp : env.X509KeyPair certData keyData = .ok cert)
    (ha : Loads x.Fs x.CertificateAuthorityFile caData)
    (h : (env.AppendCertsFromPEM env.NewCertPool caData).2 = false) :
    GenerateTransportCredentials env x role =
      { val := none, err := some (.msg "failed to append certificate authority to pool")
        calls := fullCalls x } := by
  have h1 := readAllFile_of_loads hc
  have h2 := readAllFile_of_loads hk
  have h3 := readAllFile_of_loads ha
  simp [GenerateTransportCredentials, h1, h2, hp, h3, h, fullCalls]

theorem generate_of_material {certData keyData caData : Bytes} {cert : Cert}
    (h : Material env x certData keyData caData cert) :
    GenerateTransportCredentials env x role =
      match roleConfig cert (env.AppendCertsFromPEM env.NewCertPool caData).1 role with
      | .error err => { val := none, err := some err, calls := fullCalls x }
      | .ok tlsConfig => { val := some (NewTLS tlsConfig), err := none, calls := fullCalls x } := by
  obtain ⟨hc, hk, hp, ha, hb⟩ := h
  have h1 := readAllFile_of_loads hc
  have h2 := readAllFile_of_loads hk
  have h3 := readAllFile_of_loads ha
  simp [GenerateTransportCredentials, h1, h2, hp, h3, hb, fullCalls]

/-- The outcome of a call is one of six: one failure per step, or success. -/
theorem generate_cases (env : Env Cert Pool) (x : X509Files) :
    (∃ e, LoadFails x.Fs x.CertificateFile e) ∨
    (∃ certData e, Loads x.Fs x.CertificateFile certData ∧ LoadFails x.Fs x.KeyFile e) ∨
    (∃ certData keyData e, Loads x.Fs x.CertificateFile certData ∧ Loads x.Fs x.KeyFile keyData ∧
      env.X509KeyPair certData keyData = .error e) ∨
    (∃ certData keyData cert e, Loads x.Fs x.CertificateFile certData ∧
      Loads x.Fs x.KeyFile keyData ∧ env.X509KeyPair certData keyData = .ok cert ∧
      LoadFails x.Fs x.CertificateAuthorityFile e) ∨
    (∃ certData keyData cert caData, Loads x.Fs x.CertificateFile certData ∧
      Loads x.Fs x.KeyFile keyData ∧ env.X509KeyPair certData keyData = .ok cert ∧
      Loads x.Fs x.CertificateAuthorityFile caData ∧
      (env.AppendCertsFromPEM env.NewCertPool caData).2 = false) ∨
    (∃ certData keyData caData cert, Material env x certData keyData caData cert) := by
  rcases loads_or_loadFails x.Fs x.CertificateFile with ⟨cd, hc⟩ | ⟨e, he⟩
  swap
  · exact Or.inl ⟨e, he⟩
  rcases loads_or_loadFails x.Fs x.KeyFile with ⟨kd, hk⟩ | ⟨e, he⟩
  swap
  · exact Or.inr (Or.inl ⟨cd, e, hc, he⟩)
  cases hp : env.X509KeyPair cd kd with
  | error e => exact Or.inr (Or.inr (Or.inl ⟨cd, kd, e, hc, hk, hp⟩))
  | ok cert =>
    rcases loads_or_loadFails x.Fs x.CertificateAuthorityFile with ⟨ad, ha⟩ | ⟨e, he⟩
    swap
    · exact Or.inr (Or.inr (Or.inr (Or.inl ⟨cd, kd, cert, e, hc, hk, hp, he⟩)))
    cases hb : (env.AppendCertsFromPEM env.NewCertPool ad).2 with
    | false => exact Or.inr (Or.inr (Or.inr (Or.inr (Or.inl ⟨cd, kd, cert, ad, hc, hk, hp, ha, hb⟩))))
    | true => exact Or.inr (Or.inr (Or.inr (Or.inr (Or.inr ⟨cd, kd, ad, cert, hc, hk, hp, ha, hb⟩))))

theorem roleConfig_client (cert : Cert) (pool : Pool) :
    roleConfig cert pool Client = .ok { Certificates := [cert], RootCAs := some pool } := by
  simp [roleConfig]

theorem roleConfig_server (cert : Cert) (pool : Pool) :
    roleConfig cert pool Server =
      .ok { ClientAuth := .RequireAndVerifyClientCert, Certificates := [cert],
            ClientCAs := some pool } := by
  simp [roleConfig, Server, Client]

theorem roleConfig_invalid (cert : Cert) (pool : Pool) {role : MTLSConfig}
    (h0 : role ≠ Client) (h1 : role ≠ Server) :
    (roleConfig cert pool role : Except GoError (TLSConfig Cert Pool)) =
      .error (.msg ("invalid MTLSConfig: " ++ toString role)) := by
  simp [roleConfig, h0, h1]

end Steps

theorem sampleFiles_material : Material sampleEnv sampleFiles [67] [75] [65] "leaf" :=
  ⟨⟨⟨[67], none⟩, rfl, rfl, rfl⟩, ⟨⟨[75], none⟩, rfl, rfl, rfl⟩, rfl,
   ⟨⟨[65], none⟩, rfl, rfl, rfl⟩, rfl⟩

/-! ## C10: `readAllFile` -/

/-- C10: for every path and storage backend, `readAllFile` returns either the
complete bytes with a nil error or nil bytes with a non-nil error (exactly one
of the two); when `Open` fails the error wraps the cause under "failed to open
file" and the only storage call is that `Open`; when reading stops with an
error the bytes read so far are dropped and the error wraps the cause under
"failed to read file"; when reading reaches the end, all bytes are returned. -/
theorem readAllFile_all_or_error (x : X509Files) (path : String) :
    (((∃ data, (readAllFile x path).val = some data) ∧ (readAllFile x path).err = none) ∨
      ((readAllFile x path).val = none ∧ ∃ e, (readAllFile x path).err = some e)) ∧
    (∀ cause, x.Fs.Open path = .error cause →
      (readAllFile x path).val = none ∧
      (readAllFile x path).err = some (.wrap "failed to open file: " cause) ∧
      (readAllFile x path).calls = [.Open path]) ∧
    (∀ file cause, x.Fs.Open path = .ok file → (ioReadAll file).2 = some cause →
      (readAllFile x path).val = none ∧
      (readAllFile x path).err = some (.wrap "failed to read file: " cause)) ∧
    (∀ file, x.Fs.Open path = .ok file → (ioReadAll file).2 = none →
      (readAllFile x path).val = some (ioReadAll file).1 ∧ (readAllFile x path).err = none) := by
  refine ⟨?_, ?_, ?_, ?_⟩
  · rcases loads_or_loadFails x.Fs path with ⟨data, h⟩ | ⟨e, h⟩
    · exact Or.inl (by simp [readAllFile_of_loads h])
    · have hf := readAllFile_of_loadFails h
      exact Or.inr ⟨hf.1, e, hf.2.1⟩
  · intro cause h
    simp [readAllFile_of_openFails (show OpenFails x.Fs path cause from h)]
  · intro file cause ho hr
    simp [readAllFile_of_readFails (show ReadFails x.Fs path cause from ⟨file, ho, hr⟩)]
  · intro file ho hr
    simp [readAllFile_of_loads (show Loads x.Fs path file.data from ⟨file, ho, hr, rfl⟩), ioReadAll]

/-- C10 at concrete inputs: a file that breaks off while being read, and a file
that does not open. -/
theorem readAllFile_all_or_error_witness :
    ((readAllFile brokenFiles "crt").val = none ∧
      (readAllFile brokenFiles "crt").err =
        some (.wrap "failed to read file: " (.msg "unexpected EOF"))) ∧
    ((readAllFile brokenFiles "key").val = none ∧
      (readAllFile brokenFiles "key").err =
        some (.wrap "failed to open file: " (.msg "permission denied")) ∧
      (readAllFile brokenFiles "key").calls = [.Open "key"]) :=
  ⟨(readAllFile_all_or_error brokenFiles "crt").2.2.1
      { data := [67], readErr := some (.msg "unexpected EOF") } (.msg "unexpected EOF") rfl rfl,
   (readAllFile_all_or_error brokenFiles "key").2.1 (.msg "permission denied") rfl⟩

/-! ## C9: `NewX509Files` -/

theorem foldl_withFilesystem (fss : List AferoFs) (x : X509Files) :
    (fss.map WithFilesystem).foldl (fun x5f option => option x5f) x =
      { x with Fs := fss.getLast?.getD x.Fs } := by
  induction fss generalizing x with
  | nil => rfl
  | cons fs rest ih =>
    rw [List.map_cons, List.foldl_cons, ih]
    cases rest with
    | nil => rfl
    | cons fs2 rest2 =>
      cases hl : (fs2 :: rest2).getLast? with
      | none => simp at hl
      | some l => simp [WithFilesystem, List.getLast?_cons_cons, hl]

/-- C9: `NewX509Files c k a options` is a total function of its arguments that
calls nothing on any storage backend; with no options it is the struct with
the paths `c`, `k`, `a` and the OS filesystem; with the options
`WithFilesystem fs1, ..., WithFilesystem fsn` the paths are still `c`, `k`,
`a` and `Fs` is the last `fsn` (the OS filesystem when there is none). -/
theorem NewX509Files_fields (osFs : AferoFs) (c k a : String) (fss : List AferoFs) :
    NewX509Files osFs c k a [] =
      { CertificateFile := c, KeyFile := k, CertificateAuthorityFile := a, Fs := osFs } ∧
    (NewX509Files osFs c k a (fss.map WithFilesystem)).CertificateFile = c ∧
    (NewX509Files osFs c k a (fss.map WithFilesystem)).KeyFile = k ∧
    (NewX509Files osFs c k a (fss.map WithFilesystem)).CertificateAuthorityFile = a ∧
    (NewX509Files osFs c k a (fss.map WithFilesystem)).Fs = fss.getLast?.getD osFs := by
  refine ⟨rfl, ?_, ?_, ?_, ?_⟩ <;> simp [NewX509Files, foldl_withFilesystem]

/-! ## C4: an unreadable certificate file -/

/-- C4: for every `X509Files` and every role, if the certificate file cannot
be opened or read (`e` being the error of `readAllFile`, which wraps the
underlying cause), `GenerateTransportCredentials` returns a nil credential and
the error `e` wrapped under "failed to read certificate file: "; the storage
backend is asked to open the certificate path once and nothing else, and no
call concerns another path. -/
theorem certificate_unreadable_stops {Cert Pool : Type} (env : Env Cert Pool) (x : X509Files)
    (role : MTLSConfig) (e : GoError) (h : LoadFails x.Fs x.CertificateFile e) :
    (GenerateTransportCredentials env x role).val = none ∧
    (GenerateTransportCredentials env x role).err =
      some (.wrap "failed to read certificate file: " e) ∧
    (GoError.wrap "failed to read certificate file: " e).Error =
      "failed to read certificate file: " ++ e.Error ∧
    (∃ cause, e.Unwrap = some cause ∧
      (OpenFails x.Fs x.CertificateFile cause ∨ ReadFails x.Fs x.CertificateFile cause)) ∧
    opens (GenerateTransportCredentials env x role).calls = [x.CertificateFile] ∧
    ∀ c ∈ (GenerateTransportCredentials env x role).calls, c.path = x.CertificateFile := by
  have hf := readAllFile_of_loadFails h
  rw [generate_of_certFails h]
  refine ⟨rfl, rfl, rfl, ?_, hf.2.2.1, hf.2.2.2⟩
  rcases h with ⟨cause, h, rfl⟩ | ⟨cause, h, rfl⟩
  · exact ⟨cause, rfl, Or.inl h⟩
  · exact ⟨cause, rfl, Or.inr h⟩

/-- C4 at a concrete input: no file is stored, the role is `Server`. -/
theorem certificate_unreadable_stops_witness :
    (GenerateTransportCredentials sampleEnv missingFiles Server).val = none ∧
    (GenerateTransportCredentials sampleEnv missingFiles Server).err =
      some (.wrap "failed to read certificate file: "
        (.wrap "failed to open file: " (.msg "open crt: file does not exist"))) ∧
    opens (GenerateTransportCredentials sampleEnv missingFiles Server).calls = ["crt"] :=
  have h := certificate_unreadable_stops sampleEnv missingFiles Server
    (.wrap "failed to open file: " (.msg "open crt: file does not exist"))
    (Or.inl ⟨.msg "open crt: file does not exist", rfl, rfl⟩)
  ⟨h.1, h.2.1, h.2.2.2.2.1⟩

/-! ## C1: the policy of each role -/

/-- C1: whenever `GenerateTransportCredentials` succeeds for `Server`, the
policy it wraps has `ClientAuth = RequireAndVerifyClientCert`, `ClientCAs` =
the pool built from the CA file, `Certificates` = exactly the loaded key pair
(and `RootCAs` unset); whenever it succeeds for `Client`, the policy has
`RootCAs` = that pool, `Certificates` = exactly the loaded key pair,
`ClientAuth` at its zero value and `ClientCAs` unset. -/
theorem role_policy {Cert Pool : Type} (env : Env Cert Pool) (x : X509Files) :
    ((GenerateTransportCredentials env x Server).err = none →
      ∃ certData keyData caData cert tc, Material env x certData keyData caData cert ∧
        (GenerateTransportCredentials env x Server).val = some tc ∧
        tc.config.ClientAuth = .RequireAndVerifyClientCert ∧
        tc.config.ClientCAs = some (env.AppendCertsFromPEM env.NewCertPool caData).1 ∧
        tc.config.Certificates = [cert] ∧ tc.config.RootCAs = none) ∧
    ((GenerateTransportCredentials env x Client).err = none →
      ∃ certData keyData caData cert tc, Material env x certData keyData caData cert ∧
        (GenerateTransportCredentials env x Client).val = some tc ∧
        tc.config.RootCAs = some (env.AppendCertsFromPEM env.NewCertPool caData).1 ∧
        tc.config.Certificates = [cert] ∧
        tc.config.ClientAuth = .NoClientCert ∧ tc.config.ClientCAs = none) := by
  constructor
  · intro h
    rcases generate_cases env x with ⟨e, h1⟩ | ⟨cd, e, hc, h1⟩ | ⟨cd, kd, e, hc, hk, h1⟩ |
      ⟨cd, kd, cert, e, hc, hk, hp, h1⟩ | ⟨cd, kd, cert, ad, hc, hk, hp, ha, h1⟩ |
      ⟨cd, kd, ad, cert, hm⟩
    · simp [generate_of_certFails h1] at h
    · simp [generate_of_keyFails hc h1] at h
    · simp [generate_of_pairFails hc hk h1] at h
    · simp [generate_of_caFails hc hk hp h1] at h
    · simp [generate_of_poolFails hc hk hp ha h1] at h
    · rw [generate_of_material hm, roleConfig_server]
      exact ⟨cd, kd, ad, cert, _, hm, rfl, rfl, rfl, rfl, rfl⟩
  · intro h
    rcases generate_cases env x with ⟨e, h1⟩ | ⟨cd, e, hc, h1⟩ | ⟨cd, kd, e, hc, hk, h1⟩ |
      ⟨cd, kd, cert, e, hc, hk, hp, h1⟩ | ⟨cd, kd, cert, ad, hc, hk, hp, ha, h1⟩ |
      ⟨cd, kd, ad, cert, hm⟩
    · simp [generate_of_certFails h1] at h
    · simp [generate_of_keyFails hc h1] at h
    · simp [generate_of_pairFails hc hk h1] at h
    · simp [generate_of_caFails hc hk hp h1] at h
    · simp [generate_of_poolFails hc hk hp ha h1] at h
    · rw [generate_of_material hm, roleConfig_client]
      exact ⟨cd, kd, ad, cert, _, hm, rfl, rfl, rfl, rfl, rfl⟩

/-- C1 at a concrete input: both roles over the three sample files. -/
theorem role_policy_witness :
    (∃ certData keyData caData cert tc, Material sampleEnv sampleFiles certData keyData caData cert ∧
        (GenerateTransportCredentials sampleEnv sampleFiles Server).val = some tc ∧
        tc.config.ClientAuth = .RequireAndVerifyClientCert ∧
        tc.config.ClientCAs =
          some (sampleEnv.AppendCertsFromPEM sampleEnv.NewCertPool caData).1 ∧
        tc.config.Certificates = [cert] ∧ tc.config.RootCAs = none) ∧
    (∃ certData keyData caData cert tc, Material sampleEnv sampleFiles certData keyData caData cert ∧
        (GenerateTransportCredentials sampleEnv sampleFiles Client).val = some tc ∧
        tc.config.RootCAs =
          some (sampleEnv.AppendCertsFromPEM sampleEnv.NewCertPool caData).1 ∧
        tc.config.Certificates = [cert] ∧
        tc.config.ClientAuth = .NoClientCert ∧ tc.config.ClientCAs = none) :=
  ⟨(role_policy sampleEnv sampleFiles).1 rfl, (role_policy sampleEnv sampleFiles).2 rfl⟩

/-! ## C5: the CA pool -/

/-- C5: when the three files are readable and the certificate and key form a
valid pair, then for each of the roles `Client` and `Server`: if
`AppendCertsFromPEM` reports true on the CA bytes the call succeeds (a
credential and a nil error); if it reports false the call returns a nil
credential and the error "failed to append certificate authority to pool". -/
theorem pool_append_decides {Cert Pool : Type} (env : Env Cert Pool) (x : X509Files)
    (role : MTLSConfig) (certData keyData caData : Bytes) (cert : Cert)
    (hc : Loads x.Fs x.CertificateFile certData) (hk : Loads x.Fs x.KeyFile keyData)
    (hp : env.X509KeyPair certData keyData = .ok cert)
    (ha : Loads x.Fs x.CertificateAuthorityFile caData)
    (hr : role = Client ∨ role = Server) :
    ((env.AppendCertsFromPEM env.NewCertPool caData).2 = true →
      (∃ tc, (GenerateTransportCredentials env x role).val = some tc) ∧
      (GenerateTransportCredentials env x role).err = none) ∧
    ((env.AppendCertsFromPEM env.NewCertPool caData).2 = false →
      (GenerateTransportCredentials env x role).val = none ∧
      (GenerateTransportCredentials env x role).err =
        some (.msg "failed to append certificate authority to pool")) := by
  constructor
  · intro hb
    have hm : Material env x certData keyData caData cert := ⟨hc, hk, hp, ha, hb⟩
    rcases hr with rfl | rfl
    · simp [generate_of_material hm, roleConfig_client]
    · simp [generate_of_material hm, roleConfig_server]
  · intro hb
    simp [generate_of_poolFails hc hk hp ha hb]

/-- C5 at concrete inputs: a CA file with content for `Server`, an empty CA
file for `Client`. -/
theorem pool_append_decides_witness :
    ((∃ tc, (GenerateTransportCredentials sampleEnv sampleFiles Server).val = some tc) ∧
      (GenerateTransportCredentials sampleEnv sampleFiles Server).err = none) ∧
    ((GenerateTransportCredentials sampleEnv emptyCaFiles Client).val = none ∧
      (GenerateTransportCredentials sampleEnv emptyCaFiles Client).err =
        some (.msg "failed to append certificate authority to pool")) :=
  ⟨(pool_append_decides sampleEnv sampleFiles Server [67] [75] [65] "leaf"
      ⟨⟨[67], none⟩, rfl, rfl, rfl⟩ ⟨⟨[75], none⟩, rfl, rfl, rfl⟩ rfl
      ⟨⟨[65], none⟩, rfl, rfl, rfl⟩ (Or.inr rfl)).1 rfl,
   (pool_append_decides sampleEnv emptyCaFiles Client [67] [75] [] "leaf"
      ⟨⟨[67], none⟩, rfl, rfl, rfl⟩ ⟨⟨[75], none⟩, rfl, rfl, rfl⟩ rfl
      ⟨⟨[], none⟩, rfl, rfl, rfl⟩ (Or.inl rfl)).2 rfl⟩

/-! ## C6: the protocol information of a fresh credential -/

theorem memMapFs_loads {m : MemMapFs} {path : String} {data : Bytes}
    (h : m.files.lookup path = some data) : Loads m.toFs path data :=
  ⟨{ data := data, readErr := none }, by simp [MemMapFs.toFs, h], rfl, rfl⟩

/-- C6: for every certificate and key that `X509KeyPair` accepts and every CA
bundle on which `AppendCertsFromPEM` reports true, stored at the three
configured paths of an in-memory filesystem passed with `WithFilesystem`,
`GenerateTransportCredentials` returns for `Client` and for `Server` a nil
error and a credential whose `Info()` is `ServerName ""`, `SecurityProtocol
"tls"`, `SecurityVersion "1.2"`, `ProtocolVersion ""`. -/
theorem fresh_credential_info {Cert Pool : Type} (env : Env Cert Pool) (m : MemMapFs)
    (c k a : String) (certData keyData caData : Bytes) (cert : Cert)
    (hc : m.files.lookup c = some certData) (hk : m.files.lookup k = some keyData)
    (ha : m.files.lookup a = some caData)
    (hp : env.X509KeyPair certData keyData = .ok cert)
    (hb : (env.AppendCertsFromPEM env.NewCertPool caData).2 = true) :
    ∀ role, role = Client ∨ role = Server →
      (GenerateTransportCredentials env
        (NewX509Files env.NewOsFs c k a [WithFilesystem m.toFs]) role).err = none ∧
      ∃ tc, (GenerateTransportCredentials env
        (NewX509Files env.NewOsFs c k a [WithFilesystem m.toFs]) role).val = some tc ∧
        tc.Info = { ServerName := "", SecurityProtocol := "tls", SecurityVersion := "1.2",
                    ProtocolVersion := "" } := by
  intro role hr
  have hm : Material env (NewX509Files env.NewOsFs c k a [WithFilesystem m.toFs])
      certData keyData caData cert :=
    ⟨memMapFs_loads hc, memMapFs_loads hk, hp, memMapFs_loads ha, hb⟩
  rcases hr with rfl | rfl
  · rw [generate_of_material hm, roleConfig_client]
    exact ⟨rfl, _, rfl, rfl⟩
  · rw [generate_of_material hm, roleConfig_server]
    exact ⟨rfl, _, rfl, rfl⟩

/-- C6 at a concrete input: the three sample files, role `Client`. -/
theorem fresh_credential_info_witness :
    (GenerateTransportCredentials sampleEnv sampleFiles Client).err = none ∧
    ∃ tc, (GenerateTransportCredentials sampleEnv sampleFiles Client).val = some tc ∧
      tc.Info = { ServerName := "", SecurityProtocol := "tls", SecurityVersion := "1.2",
                  ProtocolVersion := "" } :=
  fresh_credential_info sampleEnv sampleMem "crt" "key" "ca" [67] [75] [65] "leaf"
    rfl rfl rfl rfl rfl Client (Or.inl rfl)

/-! ## C7: a certificate and key that do not pair -/

set_option maxRecDepth 20000 in
/-- C7, the text of the error: with a key that does not match the certificate
the error reads "failed to load x509 key pair: ..." and the words "failed to
load key pair" occur nowhere in it. -/
theorem key_pair_error_text_counterexample :
    (GenerateTransportCredentials sampleEnv wrongKeyFiles Server).err =
      some (.wrap "failed to load x509 key pair: "
        (.msg "tls: private key does not match public key")) ∧
    (GoError.wrap "failed to load x509 key pair: "
        (.msg "tls: private key does not match public key")).Error =
      "failed to load x509 key pair: tls: private key does not match public key" ∧
    ¬ ("failed to load key pair".data <:+:
        "failed to load x509 key pair: tls: private key does not match public key".data) := by
  refine ⟨rfl, rfl, ?_⟩
  decide

/-- C7, as amended: for every role and every state of the storage backend in
which the certificate file and the key file are readable but `X509KeyPair`
rejects their bytes with the error `e`, `GenerateTransportCredentials`
returns a nil credential and the error "failed to load x509 key pair: "
followed by the text of `e`, which unwraps to `e`. -/
theorem key_pair_rejected {Cert Pool : Type} (env : Env Cert Pool) (x : X509Files)
    (role : MTLSConfig) (certData keyData : Bytes) (e : GoError)
    (hc : Loads x.Fs x.CertificateFile certData) (hk : Loads x.Fs x.KeyFile keyData)
    (hp : env.X509KeyPair certData keyData = .error e) :
    (GenerateTransportCredentials env x role).val = none ∧
    (GenerateTransportCredentials env x role).err =
      some (.wrap "failed to load x509 key pair: " e) ∧
    (GoError.wrap "failed to load x509 key pair: " e).Error =
      "failed to load x509 key pair: " ++ e.Error ∧
    (GoError.wrap "failed to load x509 key pair: " e).Unwrap = some e := by
  rw [generate_of_pairFails hc hk hp]
  exact ⟨rfl, rfl, rfl, rfl⟩

/-- C7 as amended, at a concrete input: the key `[88]` for the certificate
`[67]`, role `Client`. -/
theorem key_pair_rejected_witness :
    (GenerateTransportCredentials sampleEnv wrongKeyFiles Client).val = none ∧
    (GenerateTransportCredentials sampleEnv wrongKeyFiles Client).err =
      some (.wrap "failed to load x509 key pair: "
        (.msg "tls: private key does not match public key")) :=
  have h := key_pair_rejected sampleEnv wrongKeyFiles Client [67] [88]
    (.msg "tls: private key does not match public key")
    ⟨⟨[67], none⟩, rfl, rfl, rfl⟩ ⟨⟨[88], none⟩, rfl, rfl, rfl⟩ rfl
  ⟨h.1, h.2.1⟩

/-! ## C3: the order of loading and parsing -/

/-- C3 fails when the pair is invalid and the CA file is unreadable: the
certificate and the key load, `X509KeyPair` rejects them, the CA file does not
open, and the call reports the key-pair error, not a read error for the CA
file, which it never tried to open. -/
theorem ca_read_after_pair_counterexample :
    Loads mismatchFiles.Fs mismatchFiles.CertificateFile [67] ∧
    Loads mismatchFiles.Fs mismatchFiles.KeyFile [88] ∧
    sampleEnv.X509KeyPair [67] [88] =
      .error (.msg "tls: private key does not match public key") ∧
    OpenFails mismatchFiles.Fs mismatchFiles.CertificateAuthorityFile
      (.msg "open ca: file does not exist") ∧
    (GenerateTransportCredentials sampleEnv mismatchFiles Client).err =
      some (.wrap "failed to load x509 key pair: "
        (.msg "tls: private key does not match public key")) ∧
    (GenerateTransportCredentials sampleEnv mismatchFiles Client).err ≠
      some (.wrap "failed to read certificate authority file: "
        (.wrap "failed to open file: " (.msg "open ca: file does not exist"))) ∧
    opens (GenerateTransportCredentials sampleEnv mismatchFiles Client).calls = ["crt", "key"] := by
  refine ⟨⟨⟨[67], none⟩, rfl, rfl, rfl⟩, ⟨⟨[88], none⟩, rfl, rfl, rfl⟩, rfl, rfl, rfl, ?_, rfl⟩
  decide

/-- C3, as amended: `GenerateTransportCredentials` loads the certificate
bytes, then the key bytes, then parses the two as a pair, and only then loads
the CA bytes.  If the certificate file cannot be loaded the error is the read
error "failed to read certificate file: "; else if the key file cannot be
loaded it is "failed to read key file: "; else if the pair is valid and the CA
file cannot be loaded it is "failed to read certificate authority file: ";
each wraps the error of the failed load and comes with a nil credential.  If
the certificate and key load but are not a valid pair, the call fails with the
key-pair error and the CA file is never opened. -/
theorem load_order {Cert Pool : Type} (env : Env Cert Pool) (x : X509Files)
    (role : MTLSConfig) :
    (∀ e, LoadFails x.Fs x.CertificateFile e →
      (GenerateTransportCredentials env x role).val = none ∧
      (GenerateTransportCredentials env x role).err =
        some (.wrap "failed to read certificate file: " e)) ∧
    (∀ certData e, Loads x.Fs x.CertificateFile certData → LoadFails x.Fs x.KeyFile e →
      (GenerateTransportCredentials env x role).val = none ∧
      (GenerateTransportCredentials env x role).err =
        some (.wrap "failed to read key file: " e)) ∧
    (∀ certData keyData cert e, Loads x.Fs x.CertificateFile certData →
      Loads x.Fs x.KeyFile keyData → env.X509KeyPair certData keyData = .ok cert →
      LoadFails x.Fs x.CertificateAuthorityFile e →
      (GenerateTransportCredentials env x role).val = none ∧
      (GenerateTransportCredentials env x role).err =
        some (.wrap "failed to read certificate authority file: " e)) ∧
    (∀ certData keyData e, Loads x.Fs x.CertificateFile certData →
      Loads x.Fs x.KeyFile keyData → env.X509KeyPair certData keyData = .error e →
      (GenerateTransportCredentials env x role).err =
        some (.wrap "failed to load x509 key pair: " e) ∧
      opens (GenerateTransportCredentials env x role).calls = [x.CertificateFile, x.KeyFile]) := by
  refine ⟨?_, ?_, ?_, ?_⟩
  · intro e h
    simp [generate_of_certFails h]
  · intro cd e hc h
    simp [generate_of_keyFails hc h]
  · intro cd kd cert e hc hk hp h
    simp [generate_of_caFails hc hk hp h]
  · intro cd kd e hc hk hp
    simp [generate_of_pairFails hc hk hp, opens]

/-- C3 as amended, at concrete inputs: no file at all; a certificate that
breaks off and a key that does not open; a valid pair without a CA file; a
pair that does not match, without a CA file. -/
theorem load_order_witness :
    ((GenerateTransportCredentials sampleEnv missingFiles Client).val = none ∧
      (GenerateTransportCredentials sampleEnv missingFiles Client).err =
        some (.wrap "failed to read certificate file: "
          (.wrap "failed to open file: " (.msg "open crt: file does not exist")))) ∧
    ((GenerateTransportCredentials sampleEnv noCaFiles Server).val = none ∧
      (GenerateTransportCredentials sampleEnv noCaFiles Server).err =
        some (.wrap "failed to read certificate authority file: "
          (.wrap "failed to open file: " (.msg "open ca: file does not exist")))) ∧
    ((GenerateTransportCredentials sampleEnv mismatchFiles Server).err =
        some (.wrap "failed to load x509 key pair: "
          (.msg "tls: private key does not match public key")) ∧
      opens (GenerateTransportCredentials sampleEnv mismatchFiles Server).calls =
        ["crt", "key"]) :=
  ⟨(load_order sampleEnv missingFiles Client).1 _
      (Or.inl ⟨.msg "open crt: file does not exist", rfl, rfl⟩),
   (load_order sampleEnv noCaFiles Server).2.2.1 [67] [75] "leaf" _
      ⟨⟨[67], none⟩, rfl, rfl, rfl⟩ ⟨⟨[75], none⟩, rfl, rfl, rfl⟩ rfl
      (Or.inl ⟨.msg "open ca: file does not exist", rfl, rfl⟩),
   (load_order sampleEnv mismatchFiles Server).2.2.2 [67] [88] _
      ⟨⟨[67], none⟩, rfl, rfl, rfl⟩ ⟨⟨[88], none⟩, rfl, rfl, rfl⟩ rfl⟩

/-! ## C2: a role that is neither `Client` nor `Server` -/

/-- C2 fails: with the role 2 and three good files the invalid-role error
comes only after all three files have been opened and read; with the role 2
and no file the error is the read error of the certificate file, not the
invalid-role error. -/
theorem invalid_role_counterexample :
    (2 : MTLSConfig) ≠ Client ∧ (2 : MTLSConfig) ≠ Server ∧
    (GenerateTransportCredentials sampleEnv sampleFiles 2).err =
      some (.msg "invalid MTLSConfig: 2") ∧
    (GenerateTransportCredentials sampleEnv sampleFiles 2).calls =
      [.Open "crt", .ReadAll "crt", .Open "key", .ReadAll "key", .Open "ca", .ReadAll "ca"] ∧
    (GenerateTransportCredentials sampleEnv sampleFiles 2).calls ≠ [] ∧
    (GenerateTransportCredentials sampleEnv missingFiles 2).err =
      some (.wrap "failed to read certificate file: "
        (.wrap "failed to open file: " (.msg "open crt: file does not exist"))) ∧
    (GenerateTransportCredentials sampleEnv missingFiles 2).err ≠
      some (.msg "invalid MTLSConfig: 2") := by
  refine ⟨by decide, by decide, rfl, rfl, ?_, rfl, ?_⟩
  · exact fun h => List.noConfusion h
  · exact fun h => GoError.noConfusion (Option.some.inj h)

/-- C2, as amended: for every role value outside `Client`, `Server` and every
state of the storage backend, `GenerateTransportCredentials` returns a nil
credential and a non-nil error, and the role is looked at last: the storage
calls are those of a call with the role `Client`; when the three files load,
the pair parses and the pool append reports success, all three files have
been opened and read and the error is "invalid MTLSConfig: " followed by the
role in decimal; otherwise the result is the one the role `Client` gives (the
read or parse failure of the first step that fails). -/
theorem invalid_role_checked_last {Cert Pool : Type} (env : Env Cert Pool) (x : X509Files)
    (role : MTLSConfig) (h0 : role ≠ Client) (h1 : role ≠ Server) :
    (GenerateTransportCredentials env x role).val = none ∧
    (∃ e, (GenerateTransportCredentials env x role).err = some e) ∧
    (GenerateTransportCredentials env x role).calls =
      (GenerateTransportCredentials env x Client).calls ∧
    (∀ certData keyData caData cert, Material env x certData keyData caData cert →
      (GenerateTransportCredentials env x role).err =
        some (.msg ("invalid MTLSConfig: " ++ toString role)) ∧
      (GenerateTransportCredentials env x role).calls = fullCalls x) ∧
    ((¬ ∃ certData keyData caData cert, Material env x certData keyData caData cert) →
      GenerateTransportCredentials env x role = GenerateTransportCredentials env x Client) := by
  rcases generate_cases env x with ⟨e, h⟩ | ⟨cd, e, hc, h⟩ | ⟨cd, kd, e, hc, hk, h⟩ |
    ⟨cd, kd, cert, e, hc, hk, hp, h⟩ | ⟨cd, kd, cert, ad, hc, hk, hp, ha, h⟩ |
    ⟨cd, kd, ad, cert, hm⟩
  · refine ⟨?_, ?_, ?_, ?_, ?_⟩
    · simp [generate_of_certFails h]
    · simp [generate_of_certFails h]
    · simp [generate_of_certFails h]
    · intro cd kd ad cert hm
      exact (not_loads_of_loadFails h hm.1).elim
    · intro _
      rw [generate_of_certFails h, generate_of_certFails h]
  · refine ⟨?_, ?_, ?_, ?_, ?_⟩
    · simp [generate_of_keyFails hc h]
    · simp [generate_of_keyFails hc h]
    · simp [generate_of_keyFails hc h]
    · intro cd kd ad cert hm
      exact (not_loads_of_loadFails h hm.2.1).elim
    · intro _
      rw [generate_of_keyFails hc h, generate_of_keyFails hc h]
  · refine ⟨?_, ?_, ?_, ?_, ?_⟩
    · simp [generate_of_pairFails hc hk h]
    · simp [generate_of_pairFails hc hk h]
    · simp [generate_of_pairFails hc hk h]
    · intro cd2 kd2 ad cert hm
      have e1 := loads_unique hc hm.1
      have e2 := loads_unique hk hm.2.1
      subst e1 e2
      have := hm.2.2.1
      simp [h] at this
    · intro _
      rw [generate_of_pairFails hc hk h, generate_of_pairFails hc hk h]
  · refine ⟨?_, ?_, ?_, ?_, ?_⟩
    · simp [generate_of_caFails hc hk hp h]
    · simp [generate_of_caFails hc hk hp h]
    · simp [generate_of_caFails hc hk hp h]
    · intro cd2 kd2 ad cert2 hm
      exact (not_loads_of_loadFails h hm.2.2.2.1).elim
    · intro _
      rw [generate_of_caFails hc hk hp h, generate_of_caFails hc hk hp h]
  · refine ⟨?_, ?_, ?_, ?_, ?_⟩
    · simp [generate_of_poolFails hc hk hp ha h]
    · simp [generate_of_poolFails hc hk hp ha h]
    · simp [generate_of_poolFails hc hk hp ha h]
    · intro cd2 kd2 ad2 cert2 hm
      have e3 := loads_unique ha hm.2.2.2.1
      subst e3
      have := hm.2.2.2.2
      simp [h] at this
    · intro _
      rw [generate_of_poolFails hc hk hp ha h, generate_of_poolFails hc hk hp ha h]
  · have hr : ∀ (cd kd ad : Bytes) (cert : Cert), Material env x cd kd ad cert →
        GenerateTransportCredentials env x role =
          { val := none, err := some (.msg ("invalid MTLSConfig: " ++ toString role))
            calls := fullCalls x } := by
      intro cd kd ad cert hm
      rw [generate_of_material hm, roleConfig_invalid _ _ h0 h1]
    refine ⟨?_, ?_, ?_, ?_, ?_⟩
    · simp [hr _ _ _ _ hm]
    · simp [hr _ _ _ _ hm]
    · rw [hr _ _ _ _ hm, generate_of_material hm, roleConfig_client]
    · intro cd2 kd2 ad2 cert2 hm2
      simp [hr _ _ _ _ hm2]
    · intro hn
      exact (hn ⟨cd, kd, ad, cert, hm⟩).elim

/-- C2 as amended, at a concrete input: the role 2 over the three sample
files. -/
theorem invalid_role_checked_last_witness :
    (GenerateTransportCredentials sampleEnv sampleFiles 2).val = none ∧
    (GenerateTransportCredentials sampleEnv sampleFiles 2).err =
      some (.msg ("invalid MTLSConfig: " ++ toString (2 : MTLSConfig))) ∧
    (GenerateTransportCredentials sampleEnv sampleFiles 2).calls = fullCalls sampleFiles :=
  have h := invalid_role_checked_last sampleEnv sampleFiles 2 (by decide) (by decide)
  ⟨h.1, (h.2.2.2.1 _ _ _ _ sampleFiles_material).1, (h.2.2.2.1 _ _ _ _ sampleFiles_material).2⟩

/-! ## C8: success exactly when every step succeeds -/

/-- C8: `GenerateTransportCredentials` returns a credential together with a
nil error exactly when all three files are readable, the certificate and key
parse as a pair, the CA pool append reports success and the role is `Client`
or `Server`; in every other case it returns a nil credential together with a
non-nil error. -/
theorem success_iff_all_steps {Cert Pool : Type} (env : Env Cert Pool) (x : X509Files)
    (role : MTLSConfig) :
    (((∃ tc, (GenerateTransportCredentials env x role).val = some tc) ∧
        (GenerateTransportCredentials env x role).err = none) ↔
      ((∃ certData keyData caData cert, Material env x certData keyData caData cert) ∧
        (role = Client ∨ role = Server))) ∧
    (¬ ((∃ certData keyData caData cert, Material env x certData keyData caData cert) ∧
        (role = Client ∨ role = Server)) →
      (GenerateTransportCredentials env x role).val = none ∧
      ∃ e, (GenerateTransportCredentials env x role).err = some e) := by
  have key : ((∃ certData keyData caData cert, Material env x certData keyData caData cert) ∧
        (role = Client ∨ role = Server)) ∨
      ((GenerateTransportCredentials env x role).val = none ∧
        ∃ e, (GenerateTransportCredentials env x role).err = some e) := by
    rcases generate_cases env x with ⟨e, h⟩ | ⟨cd, e, hc, h⟩ | ⟨cd, kd, e, hc, hk, h⟩ |
      ⟨cd, kd, cert, e, hc, hk, hp, h⟩ | ⟨cd, kd, cert, ad, hc, hk, hp, ha, h⟩ |
      ⟨cd, kd, ad, cert, hm⟩
    · exact Or.inr (by simp [generate_of_certFails h])
    · exact Or.inr (by simp [generate_of_keyFails hc h])
    · exact Or.inr (by simp [generate_of_pairFails hc hk h])
    · exact Or.inr (by simp [generate_of_caFails hc hk hp h])
    · exact Or.inr (by simp [generate_of_poolFails hc hk hp ha h])
    · by_cases h0 : role = Client
      · exact Or.inl ⟨⟨cd, kd, ad, cert, hm⟩, Or.inl h0⟩
      · by_cases h1 : role = Server
        · exact Or.inl ⟨⟨cd, kd, ad, cert, hm⟩, Or.inr h1⟩
        · exact Or.inr (by simp [generate_of_material hm, roleConfig_invalid _ _ h0 h1])
  refine ⟨⟨?_, ?_⟩, ?_⟩
  · rintro ⟨⟨tc, hv⟩, _⟩
    rcases key with hg | ⟨hn, _⟩
    · exact hg
    · simp [hn] at hv
  · rintro ⟨⟨cd, kd, ad, cert, hm⟩, hr⟩
    rcases hr with rfl | rfl
    · simp [generate_of_material hm, roleConfig_client]
    · simp [generate_of_material hm, roleConfig_server]
  · intro hn
    rcases key with hg | hb
    · exact (hn hg).elim
    · exact hb

/-- C8 at concrete inputs: the three sample files with the role `Server`
succeed; the same files with an empty CA file fail. -/
theorem success_iff_all_steps_witness :
    ((∃ tc, (GenerateTransportCredentials sampleEnv sampleFiles Server).val = some tc) ∧
      (GenerateTransportCredentials sampleEnv sampleFiles Server).err = none) ∧
    ((GenerateTransportCredentials sampleEnv emptyCaFiles Server).val = none ∧
      ∃ e, (GenerateTransportCredentials sampleEnv emptyCaFiles Server).err = some e) :=
  ⟨(success_iff_all_steps sampleEnv sampleFiles Server).1.2
      ⟨⟨_, _, _, _, sampleFiles_material⟩, Or.inr rfl⟩,
   (success_iff_all_steps sampleEnv emptyCaFiles Server).2 (fun h => by
      obtain ⟨⟨cd, kd, ad, cert, hm⟩, _⟩ := h
      have e3 := loads_unique hm.2.2.2.1
        (show Loads emptyCaFiles.Fs emptyCaFiles.CertificateAuthorityFile []
          from ⟨⟨[], none⟩, rfl, rfl, rfl⟩)
      have hb := hm.2.2.2.2
      rw [e3] at hb
      exact Bool.noConfusion hb)⟩

end Mtls
